import Mathlib

/-!
Shallow embedding of the protected-link access-control engine of this
repository (src/main.py).  The MongoDB `protected_links` collection is
modelled as a `List Link`; `find_one` becomes `List.find?` (first match) and
`update_one` becomes `updateFirst` (rewrite the first matching document).
MongoDB guarantees `_id` uniqueness, which we carry as the explicit
`tokensUnique` invariant where a proof needs it.  User ids and timestamps are
naturals; message payloads are strings.  External effects (Telegram
membership queries, message delivery) are passed in as explicit functions.
-/

/-- Document of the `protected_links` collection as inserted by
`protect_command` (src/main.py lines 408-423).  The display-only fields
`created_by_name` and `link_type` are not modelled: no handler reads them.
`token` is the Mongo `_id` (primary key). -/
structure Link where
  token : String
  short_id : String
  telegram_link : String
  created_by : Nat
  created_at : Nat
  active : Bool
  revoked_at : Option Nat
  clicks : Nat
deriving DecidableEq

/-- Document of the `broadcast_history` collection as inserted by
`handle_broadcast_confirmation` (src/main.py lines 1291-1297). -/
structure BroadcastRecord where
  admin_id : Nat
  total_users : Nat
  successful : Nat
  failed : Nat
deriving DecidableEq

/-- A required channel as produced by `get_required_channels`
(src/main.py lines 55-82): an identifier plus its `is_public` flag. -/
structure ReqChannel where
  id : String
  is_public : Bool
deriving DecidableEq

/-- Telegram chat-member status, as compared against
`(ChatMember.MEMBER, ChatMember.ADMINISTRATOR, ChatMember.OWNER)` in
`check_channel_membership` (src/main.py line 225). -/
inductive MemberStatus where
  | member
  | administrator
  | owner
  | left
  | banned
  | restricted
deriving DecidableEq

/-- Outcome of one external `get_chat_member` query: either a status, or an
exception (network error, bot not in chat, timeout, ...). -/
inductive QueryOutcome where
  | status (s : MemberStatus)
  | error
deriving DecidableEq

/-- Observable reply of `revoke_command` with an identifier argument
(src/main.py lines 497-529): the success message, or "❌ Link not found". -/
inductive RevokeResult where
  | revoked (shortId : String)
  | notFound
deriving DecidableEq

/-- Observable reply of the revoke button handler `handle_revoke_link`
(src/main.py lines 1313-1350): success (echoing short id and final clicks),
"❌ Link not found or already revoked.", or
"❌ You don't have permission to revoke this link.". -/
inductive ButtonRevokeResult where
  | revoked (shortId : String) (finalClicks : Nat)
  | notFoundOrRevoked
  | noPermission
deriving DecidableEq

/-- HTTP response of `GET /getgrouplink/{token}` (src/main.py lines
1574-1586): JSON with the destination url, or HTTP 404 "Link not found". -/
inductive WebResponse where
  | ok (url : String)
  | notFound404
deriving DecidableEq

/-- Observable reply of the deep-link branch of `start` (src/main.py lines
318-333): the protected-link prompt with a web-app button carrying the
token, or "❌ Link expired or revoked". -/
inductive StartResponse where
  | protectedPrompt (webAppToken : String)
  | expiredOrRevoked
deriving DecidableEq

/-- Observable reply of `broadcast_command` (src/main.py lines 531-578):
admin refusal, the usage help when no message is replied to, or the
confirmation prompt showing the recipient count. -/
inductive BroadcastCmdResult where
  | adminRequired
  | usageHelp
  | confirmationPrompt (total : Nat)
deriving DecidableEq

/-- Result of one run of `handle_broadcast_confirmation`: the persisted
`BroadcastRecord` plus the chronological list of recipients for which a
delivery attempt was made (one entry per attempt). -/
structure BroadcastOutcome where
  record : BroadcastRecord
  attempts : List Nat
deriving DecidableEq

/-- Broadcast-relevant effect of one `button_callback` dispatch
(src/main.py lines 1409-1487). -/
inductive CallbackEffect where
  | broadcastRun (o : BroadcastOutcome)
  | broadcastCancelled
  | otherAction
deriving DecidableEq

/-- Python `str.upper` on one character, for the ASCII alphabet the engine
uses (tokens are URL-safe base64; identifiers typed by users are matched
against them). -/
def upperChar (c : Char) : Char :=
  if 'a' ≤ c ∧ c ≤ 'z' then Char.ofNat (c.toNat - 32) else c

/-- Python `str.upper` (ASCII range). -/
def pyUpper (s : String) : String :=
  String.mk (s.data.map upperChar)

/-- Python slicing `s[:n]`. -/
def pyTake (s : String) (n : Nat) : String :=
  String.mk (s.data.take n)

/-- Short display alias: first 8 characters of the token, upper-cased
(src/main.py line 411: `encoded_id[:8].upper()`). -/
def shortIdOf (token : String) : String :=
  pyUpper (pyTake token 8)

/-- The document `protect_command` inserts for a fresh protected link
(src/main.py lines 413-423): active, zero clicks, no revocation stamp. -/
def mkLink (token telegramLink : String) (uid now : Nat) : Link :=
  { token := token
    short_id := shortIdOf token
    telegram_link := telegramLink
    created_by := uid
    created_at := now
    active := true
    revoked_at := none
    clicks := 0 }

/-- MongoDB primary-key invariant: no two documents share a `_id`. -/
def tokensUnique (store : List Link) : Prop :=
  (store.map fun l => l.token).Nodup

instance (store : List Link) : Decidable (tokensUnique store) := by
  unfold tokensUnique
  infer_instance

/-- Mongo `update_one`: rewrite the first document matching the filter,
leave everything else in place. -/
def updateFirst (p : Link → Bool) (f : Link → Link) : List Link → List Link
  | [] => []
  | l :: rest => if p l then f l :: rest else l :: updateFirst p f rest

/-- Active-filtered lookup `find_one({"_id": token, "active": True})`, the
shared read of the resolver, the deep-link flow and the revoke button. -/
def getActive (store : List Link) (token : String) : Option Link :=
  store.find? fun l => l.token == token && l.active

/-- Web redemption endpoint `GET /getgrouplink/{token}` (src/main.py lines
1574-1586): on an active link, increment its `clicks` by one and return its
stored destination; otherwise HTTP 404.  The legacy `group_link` fallback of
line 1584 is dead for documents this engine creates (`protect_command`
always sets `telegram_link`). -/
def get_group_link (store : List Link) (token : String) :
    WebResponse × List Link :=
  match getActive store token with
  | some l =>
      (WebResponse.ok l.telegram_link,
        updateFirst (fun x => x.token == token)
          (fun x => { x with clicks := x.clicks + 1 }) store)
  | none => (WebResponse.notFound404, store)

/-- A full web request to the redemption route.  The route handler
(src/main.py line 1575) receives only the path token: the requester identity
and the membership configuration are in scope at the server but never passed
to or read by the handler, which this wrapper makes explicit. -/
def webRequest (store : List Link) (token : String)
    (channels : List ReqChannel) (query : String → QueryOutcome)
    (caller : Nat) : WebResponse × List Link :=
  get_group_link store token

/-- Deep-link branch of `start` (src/main.py lines 318-333), reached after
the membership gate passed: the same active-filtered lookup, but the only
write it performs is the reply — the links collection is returned untouched
(the user-registry upsert at lines 301-309 touches `users`, not `links`). -/
def start_deeplink (store : List Link) (arg : String) :
    StartResponse × List Link :=
  match getActive store arg with
  | some _ => (StartResponse.protectedPrompt arg, store)
  | none => (StartResponse.expiredOrRevoked, store)

/-- Filter of the `/revoke` lookup (src/main.py lines 499-506): short id or
full `_id`, restricted to the caller as owner and to active links. -/
def revokePred (uid : Nat) (linkId : String) (l : Link) : Bool :=
  (l.short_id == linkId || l.token == linkId) && l.created_by == uid && l.active

/-- `/revoke <identifier>` (src/main.py lines 497-529).  The identifier is
upper-cased first (line 497: `context.args[0].upper()`); an owner-scoped
active match is revoked (active := false, `revoked_at` stamped), otherwise
the reply is "❌ Link not found". -/
def revoke_command (store : List Link) (uid : Nat) (arg : String)
    (now : Nat) : RevokeResult × List Link :=
  let linkId := pyUpper arg
  match store.find? (fun l => revokePred uid linkId l) with
  | none => (RevokeResult.notFound, store)
  | some l =>
      (RevokeResult.revoked l.short_id,
        updateFirst (fun x => x.token == l.token)
          (fun x => { x with active := false, revoked_at := some now }) store)

/-- Revoke button handler (src/main.py lines 1313-1350): active-filtered
lookup by full token; a foreign owner gets the permission refusal; the owner
gets the revocation (active := false, `revoked_at` stamped). -/
def handle_revoke_link (store : List Link) (fromUser : Nat)
    (linkId : String) (now : Nat) : ButtonRevokeResult × List Link :=
  match getActive store linkId with
  | none => (ButtonRevokeResult.notFoundOrRevoked, store)
  | some l =>
      if l.created_by ≠ fromUser then (ButtonRevokeResult.noPermission, store)
      else
        (ButtonRevokeResult.revoked l.short_id l.clicks,
          updateFirst (fun x => x.token == linkId)
            (fun x => { x with active := false, revoked_at := some now }) store)

/-- Status test of src/main.py line 225. -/
def goodStanding : MemberStatus → Bool
  | MemberStatus.member => true
  | MemberStatus.administrator => true
  | MemberStatus.owner => true
  | _ => false

/-- Membership gate `check_channel_membership` (src/main.py lines 202-235):
empty requirement list passes immediately; private channels are skipped
(line 212: `continue`); for a public channel, a non-member status fails the
whole gate, and a query exception is caught, logged and fails the gate
(lines 229-233) — the function always returns a boolean. -/
def check_channel_membership (channels : List ReqChannel)
    (query : String → QueryOutcome) : Bool :=
  match channels with
  | [] => true
  | c :: rest =>
      if c.is_public = false then check_channel_membership rest query
      else
        match query c.id with
        | QueryOutcome.status s =>
            if goodStanding s then check_channel_membership rest query
            else false
        | QueryOutcome.error => false

/-- Delivery loop of `handle_broadcast_confirmation` (src/main.py lines
1282-1289): one attempt per user, successes and failures counted, returning
(successful, failed, chronological attempt log). -/
def broadcastLoop (attempt : Nat → Bool) : List Nat → Nat × Nat × List Nat
  | [] => (0, 0, [])
  | u :: rest =>
      let r := broadcastLoop attempt rest
      if attempt u then (r.1 + 1, r.2.1, u :: r.2.2)
      else (r.1, r.2.1 + 1, u :: r.2.2)

/-- `handle_broadcast_confirmation` (src/main.py lines 1268-1297): reads the
full user list, attempts delivery of the caller's pending broadcast message
to each user, each failure caught and counted (lines 1287-1289), then
persists a `BroadcastRecord`.  A missing pending message (`None.copy`
raising) makes every attempt fail; it never prevents the run.  No admin
check appears anywhere in the function. -/
def handle_broadcast_confirmation (fromUser : Nat) (pending : Option String)
    (deliver : String → Nat → Bool) (users : List Nat) : BroadcastOutcome :=
  let attempt : Nat → Bool := fun u =>
    match pending with
    | none => false
    | some m => deliver m u
  let r := broadcastLoop attempt users
  { record :=
      { admin_id := fromUser
        total_users := users.length
        successful := r.1
        failed := r.2.1 }
    attempts := r.2.2 }

/-- Propose step `/broadcast` (src/main.py lines 531-578): the admin-id
check guards this step; a non-admin gets the refusal and the pending
broadcast message is left untouched; the admin replying to a message gets
the confirmation prompt and the replied-to message stored as pending. -/
def broadcast_command (adminId uid : Nat) (replyTo : Option String)
    (userCount : Nat) (pending : Option String) :
    BroadcastCmdResult × Option String :=
  if uid ≠ adminId then (BroadcastCmdResult.adminRequired, pending)
  else
    match replyTo with
    | none => (BroadcastCmdResult.usageHelp, pending)
    | some m => (BroadcastCmdResult.confirmationPrompt userCount, some m)

/-- Broadcast-relevant dispatch of `button_callback` (src/main.py lines
1465-1469): the branch condition inspects only `query.data`; the caller
identity is never compared to the admin id.  Other callback branches do not
touch broadcast state and are collapsed to `otherAction`. -/
def button_callback (data : String) (fromUser : Nat)
    (pending : Option String) (deliver : String → Nat → Bool)
    (users : List Nat) (hist : List BroadcastRecord) :
    CallbackEffect × List BroadcastRecord :=
  if data == "confirm_broadcast" then
    let o := handle_broadcast_confirmation fromUser pending deliver users
    (CallbackEffect.broadcastRun o, hist ++ [o.record])
  else if data == "cancel_broadcast" then
    (CallbackEffect.broadcastCancelled, hist)
  else (CallbackEffect.otherAction, hist)

/-- Evaluation of one public channel in the gate: the external query must
answer with a member-in-good-standing status. -/
def queryPasses (query : String → QueryOutcome) (c : ReqChannel) : Bool :=
  match query c.id with
  | QueryOutcome.status s => goodStanding s
  | QueryOutcome.error => false

/-- Concrete link for concrete-input theorems: token "aaaabbbbcc" (10
URL-safe characters, lowercase), owner 1, created at time 0. -/
def demoLink : Link := mkLink "aaaabbbbcc" "https://t.me/dest" 1 0

/-- Concrete single-link store. -/
def demoStore : List Link := [demoLink]

/-- Concrete store holding only the revoked form of `demoLink`. -/
def demoRevokedStore : List Link :=
  [{ demoLink with active := false, revoked_at := some 5 }]

/-- Concrete public required channel. -/
def demoPub : ReqChannel := { id := "pubchannel", is_public := true }

/-- With unique tokens, the active-filtered lookup of a stored active link
returns exactly that link. -/
lemma getActive_of_mem {store : List Link} {l : Link}
    (hu : tokensUnique store) (hm : l ∈ store) (ha : l.active = true) :
    getActive store l.token = some l := by
  induction store with
  | nil => cases hm
  | cons h t ih =>
    unfold tokensUnique at hu
    rw [List.map_cons, List.nodup_cons] at hu
    rcases List.mem_cons.mp hm with rfl | hmt
    · unfold getActive
      rw [List.find?_cons_of_pos]
      simp [ha]
    · have hne : h.token ≠ l.token := by
        intro he
        exact hu.1 (he ▸ List.mem_map_of_mem (fun x => x.token) hmt)
      unfold getActive
      rw [List.find?_cons_of_neg]
      · exact ih hu.2 hmt
      · simp [hne]

/-- If every stored document with the given token is inactive, the
active-filtered lookup misses. -/
lemma getActive_eq_none {store : List Link} {tok : String}
    (h : ∀ l ∈ store, l.token = tok → l.active = false) :
    getActive store tok = none := by
  unfold getActive
  rw [List.find?_eq_none]
  intro x hx hpx
  rw [Bool.and_eq_true, beq_iff_eq] at hpx
  have := h x hx hpx.1
  rw [this] at hpx
  exact Bool.false_ne_true hpx.2

/-- With unique tokens, rewriting the first document of a given token is the
same as rewriting every document of that token. -/
lemma updateFirst_eq_map (tok : String) (f : Link → Link) {store : List Link}
    (hu : tokensUnique store) :
    updateFirst (fun x => x.token == tok) f store
      = store.map (fun x => if x.token == tok then f x else x) := by
  induction store with
  | nil => rfl
  | cons h t ih =>
    unfold tokensUnique at hu
    rw [List.map_cons, List.nodup_cons] at hu
    by_cases hh : h.token = tok
    · have hb : (h.token == tok) = true := beq_iff_eq.mpr hh
      simp only [updateFirst, List.map_cons, hb, if_true]
      have : ∀ x ∈ t, (if x.token == tok then f x else x) = x := by
        intro x hx
        have hxne : x.token ≠ tok := by
          intro he
          exact hu.1 (by
            rw [hh]
            exact he ▸ List.mem_map_of_mem (fun y => y.token) hx)
        simp [hxne]
      rw [List.map_congr_left this]
      simp
    · have hb : (h.token == tok) = false := by simp [hh]
      simp only [updateFirst, List.map_cons, hb, Bool.false_eq_true, if_false]
      rw [ih hu.2]

/-- With unique tokens and an active stored link, the redemption endpoint
returns the stored destination and bumps exactly that document's `clicks`. -/
lemma get_group_link_active {store : List Link} {l : Link}
    (hu : tokensUnique store) (hm : l ∈ store) (ha : l.active = true) :
    get_group_link store l.token
      = (WebResponse.ok l.telegram_link,
         store.map fun x =>
           if x.token == l.token then { x with clicks := x.clicks + 1 } else x) := by
  unfold get_group_link
  rw [getActive_of_mem hu hm ha, updateFirst_eq_map l.token _ hu]

/-- Revocation by the owner, one step: observable result and updated store. -/
lemma handle_revoke_link_owner {store : List Link} {l : Link} (now : Nat)
    (hu : tokensUnique store) (hm : l ∈ store) (ha : l.active = true) :
    handle_revoke_link store l.created_by l.token now
      = (ButtonRevokeResult.revoked l.short_id l.clicks,
         store.map fun x =>
           if x.token == l.token then { x with active := false, revoked_at := some now }
           else x) := by
  unfold handle_revoke_link
  rw [getActive_of_mem hu hm ha, updateFirst_eq_map l.token _ hu]
  simp

/-- After the revocation update, every document carrying the revoked token
is inactive. -/
lemma revoked_map_inactive (store : List Link) (tok : String) (now : Nat) :
    ∀ x ∈ store.map (fun x =>
        if x.token == tok then { x with active := false, revoked_at := some now }
        else x),
      x.token = tok → x.active = false := by
  intro x hx hxt
  rcases List.mem_map.mp hx with ⟨y, hy, hxy⟩
  by_cases hyt : y.token = tok
  · rw [← hxy]
    simp [hyt]
  · rw [← hxy] at hxt
    simp [hyt] at hxt

/-- C1 (amended): revoking an active stored link by its owner (full token,
revoke button) succeeds, clears `active` and stamps `revoked_at`; any later
revoke attempt on the same token is the NotFound outcome — the same no-op
outcome a nonexistent token produces, there being no distinct AlreadyRevoked
reply — and the active-filtered lookup never returns the link again. -/
theorem C1_revoke_lifecycle (store : List Link) (l : Link) (now later : Nat)
    (hu : tokensUnique store) (hm : l ∈ store) (ha : l.active = true) :
    (handle_revoke_link store l.created_by l.token now).fst
        = ButtonRevokeResult.revoked l.short_id l.clicks
    ∧ (∃ x ∈ (handle_revoke_link store l.created_by l.token now).snd,
        x.token = l.token ∧ x.active = false ∧ x.revoked_at = some now)
    ∧ handle_revoke_link (handle_revoke_link store l.created_by l.token now).snd
        l.created_by l.token later
        = (ButtonRevokeResult.notFoundOrRevoked,
           (handle_revoke_link store l.created_by l.token now).snd)
    ∧ getActive (handle_revoke_link store l.created_by l.token now).snd l.token
        = none := by
  have hrun := handle_revoke_link_owner now hu hm ha
  have hnone := getActive_eq_none (revoked_map_inactive store l.token now)
  refine ⟨by rw [hrun], ?_, ?_, ?_⟩
  · rw [hrun]
    refine ⟨{ l with active := false, revoked_at := some now }, ?_, rfl, rfl, rfl⟩
    have := List.mem_map_of_mem
      (fun x => if x.token == l.token then { x with active := false, revoked_at := some now } else x) hm
    simpa using this
  · rw [hrun]
    unfold handle_revoke_link
    rw [hnone]
  · rw [hrun]
    exact hnone

/-- C1 witness at a concrete store. -/
theorem C1_witness :
    (handle_revoke_link [mkLink "aaaabbbbcc" "https://t.me/dest" 1 0]
        (mkLink "aaaabbbbcc" "https://t.me/dest" 1 0).created_by
        (mkLink "aaaabbbbcc" "https://t.me/dest" 1 0).token 5).fst
      = ButtonRevokeResult.revoked (mkLink "aaaabbbbcc" "https://t.me/dest" 1 0).short_id
          (mkLink "aaaabbbbcc" "https://t.me/dest" 1 0).clicks
    ∧ (∃ x ∈ (handle_revoke_link [mkLink "aaaabbbbcc" "https://t.me/dest" 1 0]
        (mkLink "aaaabbbbcc" "https://t.me/dest" 1 0).created_by
        (mkLink "aaaabbbbcc" "https://t.me/dest" 1 0).token 5).snd,
        x.token = (mkLink "aaaabbbbcc" "https://t.me/dest" 1 0).token
          ∧ x.active = false ∧ x.revoked_at = some 5)
    ∧ handle_revoke_link (handle_revoke_link [mkLink "aaaabbbbcc" "https://t.me/dest" 1 0]
        (mkLink "aaaabbbbcc" "https://t.me/dest" 1 0).created_by
        (mkLink "aaaabbbbcc" "https://t.me/dest" 1 0).token 5).snd
        (mkLink "aaaabbbbcc" "https://t.me/dest" 1 0).created_by
        (mkLink "aaaabbbbcc" "https://t.me/dest" 1 0).token 9
        = (ButtonRevokeResult.notFoundOrRevoked,
           (handle_revoke_link [mkLink "aaaabbbbcc" "https://t.me/dest" 1 0]
        (mkLink "aaaabbbbcc" "https://t.me/dest" 1 0).created_by
        (mkLink "aaaabbbbcc" "https://t.me/dest" 1 0).token 5).snd)
    ∧ getActive (handle_revoke_link [mkLink "aaaabbbbcc" "https://t.me/dest" 1 0]
        (mkLink "aaaabbbbcc" "https://t.me/dest" 1 0).created_by
        (mkLink "aaaabbbbcc" "https://t.me/dest" 1 0).token 5).snd
        (mkLink "aaaabbbbcc" "https://t.me/dest" 1 0).token
        = none :=
  C1_revoke_lifecycle [mkLink "aaaabbbbcc" "https://t.me/dest" 1 0]
    (mkLink "aaaabbbbcc" "https://t.me/dest" 1 0) 5 9
    (by decide) (by decide) (by decide)

/-- C1, counterexample to the claim as stated: after the owner revokes the
link, a second revoke attempt on the same token produces literally the same
observable outcome as an attempt on a token that never existed — there is no
distinct AlreadyRevoked reply. -/
theorem C1_counterexample :
    (handle_revoke_link (handle_revoke_link demoStore 1 "aaaabbbbcc" 5).snd
        1 "aaaabbbbcc" 9).fst = ButtonRevokeResult.notFoundOrRevoked
    ∧ handle_revoke_link (handle_revoke_link demoStore 1 "aaaabbbbcc" 5).snd
        1 "aaaabbbbcc" 9
      = handle_revoke_link (handle_revoke_link demoStore 1 "aaaabbbbcc" 5).snd
        1 "neverexisted" 9 := by
  decide

/-- C2, counterexample to the claim as stated: user 2 pressing the revoke
button on user 1's active link gets the permission refusal, a different
observable than the lookup miss a nonexistent identifier produces — the
button path reveals that the link exists. -/
theorem C2_counterexample :
    handle_revoke_link demoStore 2 "aaaabbbbcc" 5
      = (ButtonRevokeResult.noPermission, demoStore)
    ∧ handle_revoke_link demoStore 2 "neverexisted" 5
      = (ButtonRevokeResult.notFoundOrRevoked, demoStore)
    ∧ ButtonRevokeResult.noPermission ≠ ButtonRevokeResult.notFoundOrRevoked := by
  decide

/-- C2 (amended): the `/revoke` command path hides existence — whenever the
caller owns no matching active link (in particular when the identifier names
another owner's link) the reply is the NotFound outcome, identical to a
nonexistent identifier, never a Forbidden; but the revoke-button path
answers a foreign owner's active link with a distinct permission refusal. -/
theorem C2_revoke_hiding (store : List Link) (B : Nat) (arg : String)
    (now : Nat) (l : Link) (hu : tokensUnique store)
    (hcmd : ∀ x ∈ store, x.created_by = B →
      ¬((x.short_id = pyUpper arg ∨ x.token = pyUpper arg) ∧ x.active = true))
    (hm : l ∈ store) (ha : l.active = true) (hown : l.created_by ≠ B) :
    revoke_command store B arg now = (RevokeResult.notFound, store)
    ∧ handle_revoke_link store B l.token now
        = (ButtonRevokeResult.noPermission, store) := by
  constructor
  · have hfind : store.find? (fun x => revokePred B (pyUpper arg) x) = none := by
      rw [List.find?_eq_none]
      intro x hx hpx
      unfold revokePred at hpx
      simp only [Bool.and_eq_true, Bool.or_eq_true, beq_iff_eq] at hpx
      exact hcmd x hx hpx.1.2 ⟨hpx.1.1, hpx.2⟩
    simp only [revoke_command]
    rw [hfind]
  · unfold handle_revoke_link
    rw [getActive_of_mem hu hm ha]
    simp [hown]

/-- C2 witness at a concrete store. -/
theorem C2_witness :
    revoke_command demoStore 2 "zzzz" 5 = (RevokeResult.notFound, demoStore)
    ∧ handle_revoke_link demoStore 2 demoLink.token 5
        = (ButtonRevokeResult.noPermission, demoStore) :=
  C2_revoke_hiding demoStore 2 "zzzz" 5 demoLink (by decide) (by decide)
    (by decide) (by decide) (by decide)

/-- C3, counterexample to the claim as stated: a single required channel
flagged private is skipped by the gate, so the gate passes even though the
membership query for it would report an error. -/
theorem C3_counterexample :
    check_channel_membership [{ id := "privgroup", is_public := false }]
      (fun _ => QueryOutcome.error) = true
    ∧ (fun _ => QueryOutcome.error) "privgroup" = QueryOutcome.error := by
  exact ⟨rfl, rfl⟩

/-- C3 (amended): the empty requirement list passes immediately, and the
gate passes iff every PUBLIC required channel's membership query reports a
member in good standing — channels flagged private are skipped, so flipping
only a public channel's outcome flips the gate. -/
theorem C3_gate_conjunction (channels : List ReqChannel)
    (query : String → QueryOutcome) :
    (channels = [] → check_channel_membership channels query = true)
    ∧ (check_channel_membership channels query = true
        ↔ ∀ c ∈ channels, c.is_public = true → queryPasses query c = true) := by
  constructor
  · rintro rfl
    rfl
  · induction channels with
    | nil => simp [check_channel_membership]
    | cons c rest ih =>
      rw [List.forall_mem_cons]
      unfold check_channel_membership
      by_cases hp : c.is_public = false
      · have hvac : c.is_public = true → queryPasses query c = true := by
          intro h
          rw [h] at hp
          cases hp
        simp [hp, ih, hvac]
      · have hp2 : c.is_public = true := by
          cases hq : c.is_public
          · exact absurd hq hp
          · rfl
        rcases hq : query c.id with s | _
        · by_cases hg : goodStanding s = true
          · simp [hp2, hq, hg, ih, queryPasses]
          · simp [hp2, hq, hg, queryPasses]
        · simp [hp2, hq, queryPasses]

/-- C3 witness: the empty-requirements branch at a concrete query. -/
theorem C3_witness :
    check_channel_membership [] (fun _ => QueryOutcome.error) = true :=
  (C3_gate_conjunction [] (fun _ => QueryOutcome.error)).1 rfl

/-- C4 (confirmed): redeeming a token no stored link carries and redeeming a
token all of whose documents are revoked produce the identical 404 response
and leave the store untouched — the caller cannot tell the two apart. -/
theorem C4_unknown_eq_revoked (store : List Link) (tu tr : String)
    (hunk : ∀ l ∈ store, l.token ≠ tu)
    (hrev : ∀ l ∈ store, l.token = tr → l.active = false) :
    get_group_link store tu = (WebResponse.notFound404, store)
    ∧ get_group_link store tr = (WebResponse.notFound404, store)
    ∧ get_group_link store tu = get_group_link store tr := by
  have h1 : getActive store tu = none :=
    getActive_eq_none fun l hl hteq => absurd hteq (hunk l hl)
  have h2 : getActive store tr = none := getActive_eq_none hrev
  have g1 : get_group_link store tu = (WebResponse.notFound404, store) := by
    unfold get_group_link
    rw [h1]
  have g2 : get_group_link store tr = (WebResponse.notFound404, store) := by
    unfold get_group_link
    rw [h2]
  exact ⟨g1, g2, by rw [g1, g2]⟩

/-- C4 witness at a concrete store holding one revoked link. -/
theorem C4_witness :
    get_group_link demoRevokedStore "neverexisted"
      = (WebResponse.notFound404, demoRevokedStore)
    ∧ get_group_link demoRevokedStore "aaaabbbbcc"
      = (WebResponse.notFound404, demoRevokedStore)
    ∧ get_group_link demoRevokedStore "neverexisted"
      = get_group_link demoRevokedStore "aaaabbbbcc" :=
  C4_unknown_eq_revoked demoRevokedStore "neverexisted" "aaaabbbbcc"
    (by decide) (by decide)

/-- A token-preserving rewrite of every document preserves the primary-key
invariant. -/
lemma tokensUnique_map {store : List Link} (g : Link → Link)
    (hg : ∀ x, (g x).token = x.token) (hu : tokensUnique store) :
    tokensUnique (store.map g) := by
  unfold tokensUnique at *
  rw [List.map_map]
  have he : ((fun l => l.token) ∘ g) = fun l : Link => l.token :=
    funext fun x => hg x
  rw [he]
  exact hu

/-- C5 (confirmed): redeeming an active link over the web endpoint returns
its stored destination and bumps exactly its `clicks` by one (every other
document and every other field unchanged), while the deep-link preview of
the start command performs the same active-filtered lookup and leaves the
links store entirely untouched. -/
theorem C5_redeem_and_preview (store : List Link) (l : Link)
    (hu : tokensUnique store) (hm : l ∈ store) (ha : l.active = true) :
    get_group_link store l.token
      = (WebResponse.ok l.telegram_link,
         store.map fun x =>
           if x.token == l.token then { x with clicks := x.clicks + 1 } else x)
    ∧ getActive (get_group_link store l.token).snd l.token
        = some { l with clicks := l.clicks + 1 }
    ∧ start_deeplink store l.token
        = (StartResponse.protectedPrompt l.token, store) := by
  have hrun := get_group_link_active hu hm ha
  refine ⟨hrun, ?_, ?_⟩
  · rw [hrun]
    have hg : ∀ x : Link,
        ((fun x => if x.token == l.token then { x with clicks := x.clicks + 1 } else x) x).token
          = x.token := by
      intro x
      by_cases h : x.token = l.token
      · simp [h]
      · simp [h]
    have hu2 := tokensUnique_map _ hg hu
    have hmem := List.mem_map_of_mem
      (fun x => if x.token == l.token then { x with clicks := x.clicks + 1 } else x) hm
    have hgl : (fun x => if x.token == l.token then { x with clicks := x.clicks + 1 } else x) l
        = { l with clicks := l.clicks + 1 } := by simp
    rw [hgl] at hmem
    exact getActive_of_mem hu2 hmem ha
  · unfold start_deeplink
    rw [getActive_of_mem hu hm ha]

/-- C5 witness at a concrete store. -/
theorem C5_witness :
    get_group_link demoStore demoLink.token
      = (WebResponse.ok demoLink.telegram_link,
         demoStore.map fun x =>
           if x.token == demoLink.token then { x with clicks := x.clicks + 1 } else x)
    ∧ getActive (get_group_link demoStore demoLink.token).snd demoLink.token
        = some { demoLink with clicks := demoLink.clicks + 1 }
    ∧ start_deeplink demoStore demoLink.token
        = (StartResponse.protectedPrompt demoLink.token, demoStore) :=
  C5_redeem_and_preview demoStore demoLink (by decide) (by decide) (by decide)

/-- C6 (confirmed): whenever the membership query for a public required
channel errors, the gate returns false — fail-closed; the gate is a total
boolean function, so the failure is never re-raised to the caller. -/
theorem C6_fail_closed (channels : List ReqChannel)
    (query : String → QueryOutcome) (c : ReqChannel)
    (hm : c ∈ channels) (hp : c.is_public = true)
    (he : query c.id = QueryOutcome.error) :
    check_channel_membership channels query = false := by
  induction channels with
  | nil => cases hm
  | cons h t ih =>
    rcases List.mem_cons.mp hm with rfl | hmt
    · unfold check_channel_membership
      simp [hp, he]
    · unfold check_channel_membership
      by_cases hh : h.is_public = false
      · simp [hh, ih hmt]
      · rcases hq : query h.id with s | _
        · by_cases hg : goodStanding s = true
          · simp [hh, hq, hg, ih hmt]
          · simp [hh, hq, hg]
        · simp [hh, hq]

/-- C6 witness at a concrete channel list and erroring query. -/
theorem C6_witness :
    check_channel_membership [demoPub] (fun _ => QueryOutcome.error) = false :=
  C6_fail_closed [demoPub] (fun _ => QueryOutcome.error) demoPub
    (by decide) (by decide) rfl

/-- C7, counterexample to the claim as stated: the identifier equals the
full token of an active link of this very owner, yet the lookup misses,
because `revoke_command` upper-cases the identifier before matching and the
token contains lowercase characters. -/
theorem C7_counterexample :
    demoLink.token = "aaaabbbbcc"
    ∧ demoLink.created_by = 1
    ∧ demoLink.active = true
    ∧ demoLink ∈ demoStore
    ∧ revoke_command demoStore 1 "aaaabbbbcc" 5 = (RevokeResult.notFound, demoStore) := by
  decide

/-- C7 (amended): the owner-scoped revoke lookup finds a link exactly when
the UPPER-CASED identifier equals the link's short alias or its full token,
the link was created by that owner and is active; since short aliases are
stored upper-cased, any case variant of the alias matches, while a full
token containing a lowercase character never matches via the token branch. -/
theorem C7_lookup_semantics (store : List Link) (uid : Nat) (arg : String)
    (now : Nat) :
    (revoke_command store uid arg now).fst ≠ RevokeResult.notFound
      ↔ ∃ l ∈ store, (l.short_id = pyUpper arg ∨ l.token = pyUpper arg)
          ∧ l.created_by = uid ∧ l.active = true := by
  cases hfind : store.find? (fun x => revokePred uid (pyUpper arg) x) with
  | none =>
    have hfst : (revoke_command store uid arg now).fst = RevokeResult.notFound := by
      simp only [revoke_command]
      rw [hfind]
    rw [List.find?_eq_none] at hfind
    rw [hfst]
    simp only [ne_eq, not_true_eq_false, false_iff, not_exists]
    intro l hcontra
    obtain ⟨hl, hor, hby, hact⟩ := hcontra
    apply hfind l hl
    unfold revokePred
    simp only [Bool.and_eq_true, Bool.or_eq_true, beq_iff_eq]
    exact ⟨⟨hor, hby⟩, hact⟩
  | some l =>
    have hfst : (revoke_command store uid arg now).fst
        = RevokeResult.revoked l.short_id := by
      simp only [revoke_command]
      rw [hfind]
    have hl := List.mem_of_find?_eq_some hfind
    have hp := List.find?_some hfind
    unfold revokePred at hp
    simp only [Bool.and_eq_true, Bool.or_eq_true, beq_iff_eq] at hp
    constructor
    · intro _
      exact ⟨l, hl, hp.1.1, hp.1.2, hp.2⟩
    · intro _
      rw [hfst]
      intro hcontra
      exact RevokeResult.noConfusion hcontra

/-- Per-recipient accounting of the broadcast loop: the success and failure
counts always add up to the list length, and the attempt log is exactly the
recipient list, whatever the delivery outcomes. -/
lemma broadcastLoop_spec (attempt : Nat → Bool) (users : List Nat) :
    (broadcastLoop attempt users).1 + (broadcastLoop attempt users).2.1
        = users.length
    ∧ (broadcastLoop attempt users).2.2 = users := by
  induction users with
  | nil => exact ⟨rfl, rfl⟩
  | cons u rest ih =>
    obtain ⟨ih1, ih2⟩ := ih
    unfold broadcastLoop
    by_cases h : attempt u = true
    · simp only [h, if_true, List.length_cons]
      constructor
      · omega
      · rw [ih2]
    · simp only [h, if_false, List.length_cons, Bool.false_eq_true]
      constructor
      · omega
      · rw [ih2]

/-- C8 (confirmed): one broadcast run makes exactly one delivery attempt per
registered user — a failing recipient never aborts the rest — and the
persisted record satisfies successful + failed = total recipients, the
number of registered users when the run started. -/
theorem C8_broadcast_accounting (fromUser : Nat) (pending : Option String)
    (deliver : String → Nat → Bool) (users : List Nat) :
    (handle_broadcast_confirmation fromUser pending deliver users).record.successful
      + (handle_broadcast_confirmation fromUser pending deliver users).record.failed
      = (handle_broadcast_confirmation fromUser pending deliver users).record.total_users
    ∧ (handle_broadcast_confirmation fromUser pending deliver users).record.total_users
      = users.length
    ∧ (handle_broadcast_confirmation fromUser pending deliver users).attempts = users := by
  have h := broadcastLoop_spec
    (fun u => match pending with | none => false | some m => deliver m u) users
  exact ⟨h.1, rfl, h.2⟩

/-- C9 (confirmed): the web redemption route evaluates no membership gate
and identifies no caller — for an active token the destination is returned
and the click recorded identically for every caller and every membership
configuration. -/
theorem C9_no_gate_on_web (store : List Link) (l : Link)
    (channels : List ReqChannel) (query : String → QueryOutcome) (caller : Nat)
    (hu : tokensUnique store) (hm : l ∈ store) (ha : l.active = true) :
    webRequest store l.token channels query caller
      = (WebResponse.ok l.telegram_link,
         store.map fun x =>
           if x.token == l.token then { x with clicks := x.clicks + 1 } else x)
    ∧ ∀ (channels2 : List ReqChannel) (query2 : String → QueryOutcome)
        (caller2 : Nat),
        webRequest store l.token channels2 query2 caller2
          = webRequest store l.token channels query caller :=
  ⟨get_group_link_active hu hm ha, fun _ _ _ => rfl⟩

/-- C9 witness at a concrete store, gate configuration and caller. -/
theorem C9_witness :
    webRequest demoStore demoLink.token [demoPub] (fun _ => QueryOutcome.error) 99
      = (WebResponse.ok demoLink.telegram_link,
         demoStore.map fun x =>
           if x.token == demoLink.token then { x with clicks := x.clicks + 1 } else x)
    ∧ webRequest demoStore demoLink.token []
        (fun _ => QueryOutcome.status MemberStatus.left) 7
      = webRequest demoStore demoLink.token [demoPub] (fun _ => QueryOutcome.error) 99 :=
  ⟨(C9_no_gate_on_web demoStore demoLink [demoPub] (fun _ => QueryOutcome.error) 99
      (by decide) (by decide) (by decide)).1,
   (C9_no_gate_on_web demoStore demoLink [demoPub] (fun _ => QueryOutcome.error) 99
      (by decide) (by decide) (by decide)).2 []
      (fun _ => QueryOutcome.status MemberStatus.left) 7⟩

/-- C10 (confirmed): the confirm-broadcast callback dispatches on the
callback data alone — any caller, admin or not, triggers the full fan-out
using that caller's pending broadcast message and persists a record — while
the admin-id check lives only in the propose step of the command. -/
theorem C10_confirm_no_admin_check (adminId fromUser : Nat)
    (pending : Option String) (deliver : String → Nat → Bool)
    (users : List Nat) (hist : List BroadcastRecord) (replyTo : Option String)
    (h : fromUser ≠ adminId) :
    (button_callback "confirm_broadcast" fromUser pending deliver users hist).snd
      = hist ++ [(handle_broadcast_confirmation fromUser pending deliver users).record]
    ∧ (button_callback "confirm_broadcast" fromUser pending deliver users hist).fst
      = CallbackEffect.broadcastRun
          (handle_broadcast_confirmation fromUser pending deliver users)
    ∧ (handle_broadcast_confirmation fromUser pending deliver users).attempts = users
    ∧ (handle_broadcast_confirmation fromUser pending deliver users).record.admin_id
      = fromUser
    ∧ (handle_broadcast_confirmation fromUser pending deliver users).record.total_users
      = users.length
    ∧ broadcast_command adminId fromUser replyTo users.length pending
      = (BroadcastCmdResult.adminRequired, pending) := by
  refine ⟨rfl, rfl, (broadcastLoop_spec _ users).2, rfl, rfl, ?_⟩
  unfold broadcast_command
  rw [if_pos h]

/-- C10 witness: a non-admin caller (2, admin is 1) still runs the fan-out. -/
theorem C10_witness :
    (button_callback "confirm_broadcast" 2 (some "hello") (fun _ _ => true)
        [10, 11] []).snd
      = [] ++ [(handle_broadcast_confirmation 2 (some "hello") (fun _ _ => true)
          [10, 11]).record]
    ∧ (button_callback "confirm_broadcast" 2 (some "hello") (fun _ _ => true)
        [10, 11] []).fst
      = CallbackEffect.broadcastRun
          (handle_broadcast_confirmation 2 (some "hello") (fun _ _ => true) [10, 11])
    ∧ (handle_broadcast_confirmation 2 (some "hello") (fun _ _ => true)
        [10, 11]).attempts = [10, 11]
    ∧ (handle_broadcast_confirmation 2 (some "hello") (fun _ _ => true)
        [10, 11]).record.admin_id = 2
    ∧ (handle_broadcast_confirmation 2 (some "hello") (fun _ _ => true)
        [10, 11]).record.total_users = List.length [10, 11]
    ∧ broadcast_command 1 2 none (List.length [10, 11]) (some "hello")
      = (BroadcastCmdResult.adminRequired, some "hello") :=
  C10_confirm_no_admin_check 1 2 (some "hello") (fun _ _ => true) [10, 11] [] none
    (by decide)
